import Mathlib

set_option autoImplicit false

/-!
Shallow embedding of the checkable-input state logic of the hope-ui component
library: the `Checkbox` component (controlled / uncontrolled / group-driven
checked-state resolution, its `onChange` event handler, ARIA attribute
derivation and indicator selection), the `SwitchPrimitive` component (its state
store getters, `onClick` handler and context accessor), and the
`createKeyboard` helper.

JS `boolean | undefined` values are embedded as `Option Bool` (`none` is
`undefined`); JS `string | number` values as the inductive `JSVal`; event
handlers return explicit records of their effects (default-action suppression,
the internal state afterwards, and the user callbacks invoked, in order).
-/

/-- Truthiness of a JS `boolean | undefined` value (`undefined` is falsy). -/
def truthy : Option Bool → Bool
  | none => false
  | some b => b

/-- JS nullish coalescing `a ?? b`. -/
def nullishCoalesce {α : Type} (a b : Option α) : Option α :=
  match a with
  | some x => some x
  | none => b

/-- A JS `string | number` value, as used for the checkbox `value` prop and the
group's selected-values collection (numbers restricted to integers, which is
how the repository uses them). -/
inductive JSVal where
  | str (s : String)
  | num (n : Int)
  deriving DecidableEq, Repr

/-- JS `String(v)` on a `string | number` value. -/
def jsString : JSVal → String
  | JSVal.str s => s
  | JSVal.num n => toString n

/-- JS `String(v)` where `v` may be `undefined` (JS renders `undefined` as the
string "undefined"). -/
def jsStringOpt : Option JSVal → String
  | none => "undefined"
  | some v => jsString v

/-- Ambient form-control context fields relevant to the checkable inputs. -/
structure FormControlCtx where
  required : Option Bool
  disabled : Option Bool
  invalid : Option Bool
  readOnly : Option Bool
  deriving DecidableEq, Repr

/-- Resolved form-control fields returned by `useFormControl`. -/
structure FormControlResolved where
  required : Option Bool
  disabled : Option Bool
  invalid : Option Bool
  readOnly : Option Bool
  deriving DecidableEq, Repr

/-- Modelled from the spec: `useFormControl` is not under src. Per the spec, the
shared form-control collaborator supplies ambient
`required` / `disabled` / `invalid` / `readOnly` defaults, overridable
per-instance; each resolved field is the instance prop when supplied and the
ambient context value otherwise. -/
def useFormControl (req dis inv ro : Option Bool) (fc : Option FormControlCtx) :
    FormControlResolved where
  required := nullishCoalesce req (fc.bind FormControlCtx.required)
  disabled := nullishCoalesce dis (fc.bind FormControlCtx.disabled)
  invalid := nullishCoalesce inv (fc.bind FormControlCtx.invalid)
  readOnly := nullishCoalesce ro (fc.bind FormControlCtx.readOnly)

/-- The slice of the checkbox group context state read by `Checkbox`
(`checkboxGroupContext.state`): the nullable selected-values collection and the
group-level `required` / `disabled` / `invalid` / `readOnly` fallbacks. -/
structure CheckboxGroupState where
  value : Option (List JSVal)
  required : Option Bool
  disabled : Option Bool
  invalid : Option Bool
  readOnly : Option Bool
  deriving DecidableEq, Repr

/-- The `Checkbox` props read by the state-resolution logic. -/
structure CheckboxProps where
  value : Option JSVal
  checked : Option Bool
  defaultChecked : Option Bool
  indeterminate : Option Bool
  required : Option Bool
  disabled : Option Bool
  readOnly : Option Bool
  invalid : Option Bool
  deriving DecidableEq, Repr

/-- The checkbox accessor `required()`:
`formControlProps.required ?? checkboxGroupContext?.state.required`. -/
def Checkbox.requiredState (props : CheckboxProps) (fc : Option FormControlCtx)
    (group : Option CheckboxGroupState) : Option Bool :=
  nullishCoalesce
    (useFormControl props.required props.disabled props.invalid props.readOnly fc).required
    (group.bind CheckboxGroupState.required)

/-- The checkbox accessor `disabled()`:
`formControlProps.disabled ?? checkboxGroupContext?.state.disabled`. -/
def Checkbox.disabledState (props : CheckboxProps) (fc : Option FormControlCtx)
    (group : Option CheckboxGroupState) : Option Bool :=
  nullishCoalesce
    (useFormControl props.required props.disabled props.invalid props.readOnly fc).disabled
    (group.bind CheckboxGroupState.disabled)

/-- The checkbox accessor `invalid()`:
`formControlProps.invalid ?? checkboxGroupContext?.state.invalid`. -/
def Checkbox.invalidState (props : CheckboxProps) (fc : Option FormControlCtx)
    (group : Option CheckboxGroupState) : Option Bool :=
  nullishCoalesce
    (useFormControl props.required props.disabled props.invalid props.readOnly fc).invalid
    (group.bind CheckboxGroupState.invalid)

/-- The checkbox accessor `readOnly()`:
`formControlProps.readOnly ?? checkboxGroupContext?.state.readOnly`. -/
def Checkbox.readOnlyState (props : CheckboxProps) (fc : Option FormControlCtx)
    (group : Option CheckboxGroupState) : Option Bool :=
  nullishCoalesce
    (useFormControl props.required props.disabled props.invalid props.readOnly fc).readOnly
    (group.bind CheckboxGroupState.readOnly)

/-- Initial value of the checkbox's internal uncontrolled signal:
`createSignal(!!local.defaultChecked)`. -/
def Checkbox.initialCheckedState (props : CheckboxProps) : Bool :=
  truthy props.defaultChecked

/-- The checkbox accessor `isControlled()`: `local.checked !== undefined`. -/
def Checkbox.isControlled (props : CheckboxProps) : Bool :=
  props.checked.isSome

/-- The checkbox accessor `checked()`. Inside a group context it returns the
membership test `checkboxGroupValue.some(val => String(inputProps.value) ===
String(val))` when the group's collection is non-null and JS `undefined` (here
`none`) when it is null; outside a group it returns `!!local.checked` when
controlled and the internal signal otherwise. -/
def Checkbox.checked (props : CheckboxProps) (group : Option CheckboxGroupState)
    (checkedState : Bool) : Option Bool :=
  match group with
  | some g =>
    match g.value with
    | some vs => some (vs.any fun val => jsStringOpt props.value == jsString val)
    | none => none
  | none => some (if Checkbox.isControlled props then truthy props.checked else checkedState)

/-- Tags naming the user-supplied callbacks the components may invoke; handler
invocations are recorded as a list of tags in invocation order. -/
inductive HandlerTag where
  | groupOnChange
  | localOnChange
  | switchOnChange (newValue : Bool)
  | switchOnClick
  deriving DecidableEq, Repr

/-- Modelled from the spec: `callAllHandlers` (imported from `utils/function`,
not under src) returns an event handler that invokes each supplied handler in
argument order, skipping absent ones (safe-no-op defaults for missing optional
callbacks). -/
def callAllHandlers (handlers : List (Option HandlerTag)) : List HandlerTag :=
  handlers.filterMap id

/-- Modelled from the spec: `callHandler` (imported from `utils/function`, not
under src) invokes the given handler when present and is a safe no-op
otherwise. -/
def callHandler (handler : Option HandlerTag) : List HandlerTag :=
  handler.toList

/-- Outcome of running the checkbox `onChange` event handler: whether the
event's default action was suppressed, the internal uncontrolled signal
afterwards, and the user callbacks invoked, in order. -/
structure CheckboxChangeResult where
  prevented : Bool
  newCheckedState : Bool
  calls : List HandlerTag
  deriving DecidableEq, Repr

/-- The checkbox `onChange` handler. `groupHandlerPresent` records whether
`checkboxGroupContext?.onChange` is a function and `localHandlerPresent`
whether `local.onChange` is; `targetChecked` is `event.target.checked`.
Mirrors the source: the guard reads the raw `inputProps.readOnly` /
`inputProps.disabled` props, the uncontrolled signal is set to
`target.checked`, and `callAllHandlers(checkboxGroupContext?.onChange,
local.onChange)` is invoked. -/
def Checkbox.onChange (props : CheckboxProps) (groupHandlerPresent localHandlerPresent : Bool)
    (checkedState targetChecked : Bool) : CheckboxChangeResult :=
  if truthy props.readOnly || truthy props.disabled then
    { prevented := true, newCheckedState := checkedState, calls := [] }
  else
    { prevented := false
      newCheckedState := if Checkbox.isControlled props then checkedState else targetChecked
      calls := callAllHandlers
        [if groupHandlerPresent then some HandlerTag.groupOnChange else none,
         if localHandlerPresent then some HandlerTag.localOnChange else none] }

/-- The checkbox accessor `ariaRequired()`: `required() ? true : undefined`. -/
def Checkbox.ariaRequired (props : CheckboxProps) (fc : Option FormControlCtx)
    (group : Option CheckboxGroupState) : Option Bool :=
  if truthy (Checkbox.requiredState props fc group) then some true else none

/-- The checkbox accessor `ariaDisabled()`: `disabled() ? true : undefined`. -/
def Checkbox.ariaDisabled (props : CheckboxProps) (fc : Option FormControlCtx)
    (group : Option CheckboxGroupState) : Option Bool :=
  if truthy (Checkbox.disabledState props fc group) then some true else none

/-- The checkbox accessor `ariaInvalid()`: `invalid() ? true : undefined`. -/
def Checkbox.ariaInvalid (props : CheckboxProps) (fc : Option FormControlCtx)
    (group : Option CheckboxGroupState) : Option Bool :=
  if truthy (Checkbox.invalidState props fc group) then some true else none

/-- The checkbox accessor `ariaReadonly()`: `readOnly() ? true : undefined`. -/
def Checkbox.ariaReadonly (props : CheckboxProps) (fc : Option FormControlCtx)
    (group : Option CheckboxGroupState) : Option Bool :=
  if truthy (Checkbox.readOnlyState props fc group) then some true else none

/-- Which indicator the checkbox control renders. -/
inductive CheckboxIcon where
  | indeterminateIcon
  | checkedIcon
  | noIcon
  deriving DecidableEq, Repr

/-- The control's indicator dispatch (the `Switch` / `Match` block): the
indeterminate icon when `inputProps.indeterminate` is truthy, else the checked
icon when `checked() && !inputProps.indeterminate` is truthy, else nothing. -/
def Checkbox.renderedIcon (indeterminate : Option Bool) (checked : Option Bool) : CheckboxIcon :=
  if truthy indeterminate then CheckboxIcon.indeterminateIcon
  else if truthy checked && !truthy indeterminate then CheckboxIcon.checkedIcon
  else CheckboxIcon.noIcon

/-- The `SwitchPrimitive` props read by its state logic. -/
structure SwitchProps where
  checked : Option Bool
  defaultChecked : Option Bool
  required : Option Bool
  disabled : Option Bool
  invalid : Option Bool
  readOnly : Option Bool
  value : Option String
  name : Option String
  deriving DecidableEq, Repr

/-- Resolved form-control fields of the switch (`useFormControl(props)`). -/
def Switch.formControl (props : SwitchProps) (fc : Option FormControlCtx) : FormControlResolved :=
  useFormControl props.required props.disabled props.invalid props.readOnly fc

/-- The switch state getter `isControlled`: `props.checked !== undefined`. -/
def Switch.isControlled (props : SwitchProps) : Bool :=
  props.checked.isSome

/-- The switch state getter `checked`:
`this.isControlled ? !!props.checked : this._checked`. -/
def Switch.checked (props : SwitchProps) (uchecked : Bool) : Bool :=
  if Switch.isControlled props then truthy props.checked else uchecked

/-- The switch state getter `required`: `formControlProps.required`. -/
def Switch.requiredState (props : SwitchProps) (fc : Option FormControlCtx) : Option Bool :=
  (Switch.formControl props fc).required

/-- The switch state getter `disabled`: `formControlProps.disabled`. -/
def Switch.disabledState (props : SwitchProps) (fc : Option FormControlCtx) : Option Bool :=
  (Switch.formControl props fc).disabled

/-- The switch state getter `invalid`: `formControlProps.invalid`. -/
def Switch.invalidState (props : SwitchProps) (fc : Option FormControlCtx) : Option Bool :=
  (Switch.formControl props fc).invalid

/-- The switch state getter `readOnly`: `formControlProps.readOnly`. -/
def Switch.readOnlyState (props : SwitchProps) (fc : Option FormControlCtx) : Option Bool :=
  (Switch.formControl props fc).readOnly

/-- The switch state getter `aria-required`: `this.required ? true : undefined`. -/
def Switch.ariaRequired (props : SwitchProps) (fc : Option FormControlCtx) : Option Bool :=
  if truthy (Switch.requiredState props fc) then some true else none

/-- The switch state getter `aria-disabled`: `this.disabled ? true : undefined`. -/
def Switch.ariaDisabled (props : SwitchProps) (fc : Option FormControlCtx) : Option Bool :=
  if truthy (Switch.disabledState props fc) then some true else none

/-- The switch state getter `aria-invalid`: `this.invalid ? true : undefined`. -/
def Switch.ariaInvalid (props : SwitchProps) (fc : Option FormControlCtx) : Option Bool :=
  if truthy (Switch.invalidState props fc) then some true else none

/-- The switch state getter `aria-readonly`: `this.readOnly ? true : undefined`. -/
def Switch.ariaReadonly (props : SwitchProps) (fc : Option FormControlCtx) : Option Bool :=
  if truthy (Switch.readOnlyState props fc) then some true else none

/-- The `aria-checked` attribute on the rendered switch button:
`aria-checked={state.checked}` — always emitted, carrying the resolved checked
boolean (including `false`). -/
def Switch.ariaCheckedAttr (props : SwitchProps) (uchecked : Bool) : Option Bool :=
  some (Switch.checked props uchecked)

/-- Outcome of running the switch `onClick` handler: whether the event's
default action was suppressed, the uncontrolled `_checked` field afterwards,
and the user callbacks invoked, in order. -/
structure SwitchClickResult where
  prevented : Bool
  newUchecked : Bool
  calls : List HandlerTag
  deriving DecidableEq, Repr

/-- The switch `onClick` handler. Guards on the resolved `state.readOnly` /
`state.disabled`; otherwise computes `newValue = !state.checked`, writes it to
the uncontrolled `_checked` field when not controlled, then runs
`local.onChange?.(newValue)` followed by `callHandler(local.onClick)(event)`. -/
def Switch.onClick (props : SwitchProps) (fc : Option FormControlCtx) (uchecked : Bool)
    (hasOnChange hasOnClick : Bool) : SwitchClickResult :=
  if truthy (Switch.readOnlyState props fc) || truthy (Switch.disabledState props fc) then
    { prevented := true, newUchecked := uchecked, calls := [] }
  else
    { prevented := false
      newUchecked := if Switch.isControlled props then uchecked
        else !Switch.checked props uchecked
      calls :=
        (if hasOnChange then [HandlerTag.switchOnChange (!Switch.checked props uchecked)] else [])
          ++ callHandler (if hasOnClick then some HandlerTag.switchOnClick else none) }

/-- The uncontrolled `_checked` field after `n` clicks on the switch, starting
from its initial value `!!props.defaultChecked`. -/
def Switch.iterateClicks (props : SwitchProps) (fc : Option FormControlCtx)
    (hasOnChange hasOnClick : Bool) : Nat → Bool
  | 0 => truthy props.defaultChecked
  | n + 1 =>
    (Switch.onClick props fc (Switch.iterateClicks props fc hasOnChange hasOnClick n)
      hasOnChange hasOnClick).newUchecked

/-- The value stored in `SwitchPrimitiveContext`: the switch's state store,
determined by the props, the ambient form control, and the mutable
`_checked` / `isFocused` fields. -/
structure SwitchPrimitiveContextValue where
  props : SwitchProps
  fc : Option FormControlCtx
  uchecked : Bool
  isFocused : Bool
  deriving DecidableEq, Repr

/-- The `useSwitcPrimitivehContext` accessor [sic]: throws a descriptive
configuration error when no provider supplied a context, otherwise returns the
context value. -/
def useSwitcPrimitivehContext (ctx : Option SwitchPrimitiveContextValue) :
    Except String SwitchPrimitiveContextValue :=
  match ctx with
  | none =>
    Except.error
      "[Hope UI]: useSwitcPrimitivehContext must be used within a `<SwitchPrimitive />` component"
  | some c => Except.ok c

/-- A keyboard event (opaque payload, here just the key). -/
structure KeyboardEvent where
  key : String
  deriving DecidableEq, Repr

/-- The props accepted by `createKeyboard`. User handlers are modelled by
presence flags; an invocation records the event the handler received. -/
structure CreateKeyboardProps where
  isDisabled : Option Bool
  hasOnKeyDown : Bool
  hasOnKeyUp : Bool
  deriving DecidableEq, Repr

/-- The `onKeyDown` handler built by `createKeyboard`: `some event` means
`props.onKeyDown?.(event)` ran with the (unchanged) event; `none` means the
user handler was not invoked (disabled, or no handler provided). -/
def createKeyboard.onKeyDown (props : CreateKeyboardProps) (event : KeyboardEvent) :
    Option KeyboardEvent :=
  if truthy props.isDisabled then none
  else if props.hasOnKeyDown then some event else none

/-- The `onKeyUp` handler built by `createKeyboard`: `some event` means
`props.onKeyUp?.(event)` ran with the (unchanged) event; `none` means the user
handler was not invoked (disabled, or no handler provided). -/
def createKeyboard.onKeyUp (props : CreateKeyboardProps) (event : KeyboardEvent) :
    Option KeyboardEvent :=
  if truthy props.isDisabled then none
  else if props.hasOnKeyUp then some event else none

/-- An optional ARIA attribute follows the emit-true-or-omit pattern for a
resolved boolean state: present with value `true` exactly when the state is
truthy, and never present with value `false`. -/
def emitsTrueOrOmits (resolved attr : Option Bool) : Prop :=
  (attr = some true ↔ truthy resolved = true) ∧ attr ≠ some false

/-- Helper: `List.any` with a stringified equality test is the membership test
of the stringified value in the stringified collection. -/
theorem any_jsString_eq_mem (a : String) (vs : List JSVal) :
    (vs.any fun val => a == jsString val) = true ↔ a ∈ vs.map jsString := by
  rw [List.any_eq_true]
  constructor
  · rintro ⟨v, hv, hbeq⟩
    exact List.mem_map.mpr ⟨v, hv, (beq_iff_eq.mp hbeq).symm⟩
  · intro h
    rcases List.mem_map.mp h with ⟨v, hv, hev⟩
    exact ⟨v, hv, beq_iff_eq.mpr hev.symm⟩

/-- C1: rendered inside a group context whose selected-values collection is
non-null, the checkbox's resolved checked state is the membership test of the
stringified item value in the stringified collection — `some true` exactly for
members and `some false` exactly for non-members — regardless of any explicit
`checked` prop passed to the item. -/
theorem C1_group_membership (props : CheckboxProps) (g : CheckboxGroupState)
    (vs : List JSVal) (s : Bool) (hvs : g.value = some vs) :
    (Checkbox.checked props (some g) s = some true ↔
      jsStringOpt props.value ∈ vs.map jsString)
    ∧ (Checkbox.checked props (some g) s = some false ↔
      jsStringOpt props.value ∉ vs.map jsString)
    ∧ ∀ c : Option Bool,
        Checkbox.checked { props with checked := c } (some g) s
          = Checkbox.checked props (some g) s := by
  refine ⟨?_, ?_, fun c => rfl⟩
  · rw [← any_jsString_eq_mem (jsStringOpt props.value) vs]
    simp [Checkbox.checked, hvs]
  · rw [← any_jsString_eq_mem (jsStringOpt props.value) vs]
    simp [Checkbox.checked, hvs]

/-- Witness for C1 at the spec's example: group collection `["a", "b"]`, item
value `"a"`, despite an explicit `checked := false` prop. -/
theorem C1_group_membership_witness :
    Checkbox.checked
        { value := some (JSVal.str "a"), checked := some false, defaultChecked := none,
          indeterminate := none, required := none, disabled := none, readOnly := none,
          invalid := none }
        (some { value := some [JSVal.str "a", JSVal.str "b"], required := none,
                disabled := none, invalid := none, readOnly := none }) false
      = some true :=
  (C1_group_membership
      { value := some (JSVal.str "a"), checked := some false, defaultChecked := none,
        indeterminate := none, required := none, disabled := none, readOnly := none,
        invalid := none }
      { value := some [JSVal.str "a", JSVal.str "b"], required := none,
        disabled := none, invalid := none, readOnly := none }
      [JSVal.str "a", JSVal.str "b"] false rfl).1.mpr
    (by simp [jsStringOpt, jsString])

/-- C2 fails as stated: with a group context present whose selected-values
collection is null, no non-null collection applies, yet the resolved checked
state is `none` (JS `undefined`) — not the boolean `!!props.checked = true`
demanded by the claim. -/
theorem C2_claim_counterexample :
    Checkbox.checked
        { value := some (JSVal.str "a"), checked := some true, defaultChecked := none,
          indeterminate := none, required := none, disabled := none, readOnly := none,
          invalid := none }
        (some { value := none, required := none, disabled := none, invalid := none,
                readOnly := none }) false
      = none
    ∧ Checkbox.checked
        { value := some (JSVal.str "a"), checked := some true, defaultChecked := none,
          indeterminate := none, required := none, disabled := none, readOnly := none,
          invalid := none }
        (some { value := none, required := none, disabled := none, invalid := none,
                readOnly := none }) false
      ≠ some true :=
  ⟨rfl, fun h => nomatch h⟩

/-- C2 amended: when no group context is present at all, the resolved checked
state is the boolean `!!props.checked` when the `checked` prop is supplied and
the internal uncontrolled state otherwise; the switch (which has no group)
resolves likewise. When a group context with a null collection is present the
checkbox instead resolves to `none` (JS `undefined`). -/
theorem C2_ungrouped_resolution (cp : CheckboxProps) (cs : Bool) (sp : SwitchProps) (u : Bool) :
    Checkbox.checked cp none cs
      = some (if cp.checked.isSome then truthy cp.checked else cs)
    ∧ Switch.checked sp u = (if sp.checked.isSome then truthy sp.checked else u) :=
  ⟨rfl, rfl⟩

/-- C3 fails as stated for the checkbox: with a group context supplying
`readOnly: true` and no per-instance `readOnly` / `disabled` props, the
resolved readOnly state is true, yet the `onChange` handler (whose guard reads
only the raw props) does not suppress the event: it mutates the internal
uncontrolled state and invokes the change callbacks. -/
theorem C3_claim_counterexample :
    truthy (Checkbox.readOnlyState
        { value := none, checked := none, defaultChecked := none, indeterminate := none,
          required := none, disabled := none, readOnly := none, invalid := none }
        none
        (some { value := some [], required := none, disabled := none, invalid := none,
                readOnly := some true })) = true
    ∧ Checkbox.onChange
        { value := none, checked := none, defaultChecked := none, indeterminate := none,
          required := none, disabled := none, readOnly := none, invalid := none }
        true true false true
      = { prevented := false, newCheckedState := true,
          calls := [HandlerTag.groupOnChange, HandlerTag.localOnChange] } :=
  ⟨rfl, rfl⟩

/-- C3 amended: the switch `onClick` guard uses the resolved
readOnly / disabled state, while the checkbox `onChange` guard uses only the
per-instance `readOnly` / `disabled` props; whenever its guard condition holds
the handler suppresses the default action, leaves the internal state unchanged
and invokes no callbacks. -/
theorem C3_guard_suppression (cp : CheckboxProps) (gh lh cs tc : Bool)
    (sp : SwitchProps) (fc : Option FormControlCtx) (u hoc hok : Bool)
    (hcb : (truthy cp.readOnly || truthy cp.disabled) = true)
    (hsw : (truthy (Switch.readOnlyState sp fc) || truthy (Switch.disabledState sp fc)) = true) :
    Checkbox.onChange cp gh lh cs tc
      = { prevented := true, newCheckedState := cs, calls := [] }
    ∧ Switch.onClick sp fc u hoc hok
      = { prevented := true, newUchecked := u, calls := [] } := by
  constructor
  · simp [Checkbox.onChange, hcb]
  · simp [Switch.onClick, hsw]

/-- Witness for C3 (amended): a checkbox with `readOnly := true` and a switch
with `disabled := true` both suppress the interaction entirely. -/
theorem C3_guard_suppression_witness :
    Checkbox.onChange
        { value := none, checked := none, defaultChecked := none, indeterminate := none,
          required := none, disabled := none, readOnly := some true, invalid := none }
        true true false true
      = { prevented := true, newCheckedState := false, calls := [] }
    ∧ Switch.onClick
        { checked := none, defaultChecked := none, required := none, disabled := some true,
          invalid := none, readOnly := none, value := none, name := none }
        none false true true
      = { prevented := true, newUchecked := false, calls := [] } :=
  C3_guard_suppression
    { value := none, checked := none, defaultChecked := none, indeterminate := none,
      required := none, disabled := none, readOnly := some true, invalid := none }
    true true false true
    { checked := none, defaultChecked := none, required := none, disabled := some true,
      invalid := none, readOnly := none, value := none, name := none }
    none false true true (by decide) (by decide)

/-- C4: an ungrouped controlled checkbox never mutates its internal
uncontrolled state on interaction, and its resolved checked state equals
`!!props.checked` both before and after the interaction. -/
theorem C4_controlled_frame (props : CheckboxProps) (c : Bool) (gh lh cs tc : Bool)
    (hc : props.checked = some c) :
    (Checkbox.onChange props gh lh cs tc).newCheckedState = cs
    ∧ Checkbox.checked props none cs = some c
    ∧ Checkbox.checked props none (Checkbox.onChange props gh lh cs tc).newCheckedState
        = some c := by
  have h1 : (Checkbox.onChange props gh lh cs tc).newCheckedState = cs := by
    unfold Checkbox.onChange
    split
    · rfl
    · simp [Checkbox.isControlled, hc]
  have h2 : Checkbox.checked props none cs = some c := by
    simp [Checkbox.checked, Checkbox.isControlled, hc, truthy]
  exact ⟨h1, h2, by rw [h1]; exact h2⟩

/-- Witness for C4: a controlled (`checked := true`) ungrouped checkbox keeps
its internal state and resolves to `true` across an interaction. -/
theorem C4_controlled_frame_witness :
    (Checkbox.onChange
        { value := none, checked := some true, defaultChecked := none, indeterminate := none,
          required := none, disabled := none, readOnly := none, invalid := none }
        false true false false).newCheckedState = false
    ∧ Checkbox.checked
        { value := none, checked := some true, defaultChecked := none, indeterminate := none,
          required := none, disabled := none, readOnly := none, invalid := none }
        none false = some true
    ∧ Checkbox.checked
        { value := none, checked := some true, defaultChecked := none, indeterminate := none,
          required := none, disabled := none, readOnly := none, invalid := none }
        none
        ((Checkbox.onChange
            { value := none, checked := some true, defaultChecked := none, indeterminate := none,
              required := none, disabled := none, readOnly := none, invalid := none }
            false true false false).newCheckedState) = some true :=
  C4_controlled_frame
    { value := none, checked := some true, defaultChecked := none, indeterminate := none,
      required := none, disabled := none, readOnly := none, invalid := none }
    true false true false false rfl

/-- C5: for an uncontrolled, ungrouped input whose interactions are not
suppressed, the initial resolved checked state is `!!defaultChecked` and every
interaction flips the uncontrolled state to its negation, so successive
interactions alternate; for the checkbox the interaction event carries
`target.checked`, the negation of the previously rendered checked state. -/
theorem C5_uncontrolled_toggle (sp : SwitchProps) (fc : Option FormControlCtx)
    (hoc hok : Bool) (n : Nat) (cp : CheckboxProps) (gh lh cs tc : Bool)
    (hs : sp.checked = none)
    (hsg : (truthy (Switch.readOnlyState sp fc) || truthy (Switch.disabledState sp fc)) = false)
    (hcu : cp.checked = none)
    (hcg : (truthy cp.readOnly || truthy cp.disabled) = false)
    (htc : some tc = Option.map Bool.not (Checkbox.checked cp none cs)) :
    Switch.iterateClicks sp fc hoc hok 0 = truthy sp.defaultChecked
    ∧ Switch.iterateClicks sp fc hoc hok (n + 1) = !Switch.iterateClicks sp fc hoc hok n
    ∧ Checkbox.checked cp none (Checkbox.initialCheckedState cp)
        = some (truthy cp.defaultChecked)
    ∧ (Checkbox.onChange cp gh lh cs tc).newCheckedState = !cs := by
  have hcc : Checkbox.checked cp none cs = some cs := by
    simp [Checkbox.checked, Checkbox.isControlled, hcu]
  have htc' : tc = !cs := by
    rw [hcc] at htc
    simpa using htc
  refine ⟨rfl, ?_, ?_, ?_⟩
  · show (Switch.onClick sp fc (Switch.iterateClicks sp fc hoc hok n) hoc hok).newUchecked = _
    simp [Switch.onClick, hsg, Switch.checked, Switch.isControlled, hs]
  · simp [Checkbox.checked, Checkbox.isControlled, Checkbox.initialCheckedState, hcu]
  · unfold Checkbox.onChange
    rw [if_neg (by simp [hcg])]
    simpa [Checkbox.isControlled, hcu] using htc'

/-- Witness for C5: an uncontrolled switch starting unchecked is checked after
one click and unchecked again after two; an uncontrolled checkbox flips from
`false` to `true` on interaction. -/
theorem C5_uncontrolled_toggle_witness :
    Switch.iterateClicks
        { checked := none, defaultChecked := none, required := none, disabled := none,
          invalid := none, readOnly := none, value := none, name := none }
        none true true 0 = false
    ∧ Switch.iterateClicks
        { checked := none, defaultChecked := none, required := none, disabled := none,
          invalid := none, readOnly := none, value := none, name := none }
        none true true 2 = !Switch.iterateClicks
        { checked := none, defaultChecked := none, required := none, disabled := none,
          invalid := none, readOnly := none, value := none, name := none }
        none true true 1
    ∧ Checkbox.checked
        { value := none, checked := none, defaultChecked := none, indeterminate := none,
          required := none, disabled := none, readOnly := none, invalid := none }
        none
        (Checkbox.initialCheckedState
          { value := none, checked := none, defaultChecked := none, indeterminate := none,
            required := none, disabled := none, readOnly := none, invalid := none })
      = some false
    ∧ (Checkbox.onChange
        { value := none, checked := none, defaultChecked := none, indeterminate := none,
          required := none, disabled := none, readOnly := none, invalid := none }
        true true false true).newCheckedState = true :=
  C5_uncontrolled_toggle
    { checked := none, defaultChecked := none, required := none, disabled := none,
      invalid := none, readOnly := none, value := none, name := none }
    none true true 1
    { value := none, checked := none, defaultChecked := none, indeterminate := none,
      required := none, disabled := none, readOnly := none, invalid := none }
    true true false true rfl (by decide) rfl (by decide) (by decide)

/-- C6: on a non-suppressed interaction, the checkbox invokes the group-level
change handler before the item-level `onChange` handler, and the order —
group handler first, local handler second — is fixed for every combination of
supplied handlers. -/
theorem C6_handler_order (props : CheckboxProps) (cs tc : Bool)
    (hg : (truthy props.readOnly || truthy props.disabled) = false) :
    (Checkbox.onChange props true true cs tc).calls
      = [HandlerTag.groupOnChange, HandlerTag.localOnChange]
    ∧ ∀ gh lh : Bool,
        (Checkbox.onChange props gh lh cs tc).calls
          = (if gh then [HandlerTag.groupOnChange] else [])
              ++ (if lh then [HandlerTag.localOnChange] else []) := by
  constructor
  · simp [Checkbox.onChange, hg, callAllHandlers]
  · intro gh lh
    cases gh <;> cases lh <;> simp [Checkbox.onChange, hg, callAllHandlers]

/-- Witness for C6: a grouped checkbox with both handlers present invokes the
group handler first, then the local one. -/
theorem C6_handler_order_witness :
    (Checkbox.onChange
        { value := none, checked := none, defaultChecked := none, indeterminate := none,
          required := none, disabled := none, readOnly := none, invalid := none }
        true true false true).calls
      = [HandlerTag.groupOnChange, HandlerTag.localOnChange] :=
  (C6_handler_order
      { value := none, checked := none, defaultChecked := none, indeterminate := none,
        required := none, disabled := none, readOnly := none, invalid := none }
      false true (by decide)).1

/-- C7 fails as stated for `aria-checked`: the switch button always emits
`aria-checked={state.checked}`, so an unchecked switch emits `aria-checked`
with value `false` instead of omitting the attribute. -/
theorem C7_claim_counterexample :
    Switch.ariaCheckedAttr
        { checked := none, defaultChecked := none, required := none, disabled := none,
          invalid := none, readOnly := none, value := none, name := none }
        false
      = some false
    ∧ Switch.ariaCheckedAttr
        { checked := none, defaultChecked := none, required := none, disabled := none,
          invalid := none, readOnly := none, value := none, name := none }
        false
      ≠ none :=
  ⟨rfl, fun h => nomatch h⟩

/-- Helper: the `x ? true : undefined` getter pattern satisfies the
emit-true-or-omit contract for its resolved boolean. -/
theorem emitsTrueOrOmits_ite (resolved : Option Bool) :
    emitsTrueOrOmits resolved (if truthy resolved then some true else none) := by
  cases h : truthy resolved <;> simp [emitsTrueOrOmits, h]

/-- C7 amended: `aria-required`, `aria-disabled`, `aria-invalid` and
`aria-readonly` are emitted as `true` when the corresponding resolved boolean
is true and omitted otherwise (never emitted as `false`) on both the checkbox
and the switch; `aria-checked`, however, is always emitted on the switch with
the resolved checked boolean (including `false`), and the checkbox input sets
no `aria-checked` attribute (it carries the native `checked` attribute
instead). -/
theorem C7_aria_emission (cp : CheckboxProps) (fc : Option FormControlCtx)
    (g : Option CheckboxGroupState) (sp : SwitchProps) (fcs : Option FormControlCtx)
    (u : Bool) :
    emitsTrueOrOmits (Checkbox.requiredState cp fc g) (Checkbox.ariaRequired cp fc g)
    ∧ emitsTrueOrOmits (Checkbox.disabledState cp fc g) (Checkbox.ariaDisabled cp fc g)
    ∧ emitsTrueOrOmits (Checkbox.invalidState cp fc g) (Checkbox.ariaInvalid cp fc g)
    ∧ emitsTrueOrOmits (Checkbox.readOnlyState cp fc g) (Checkbox.ariaReadonly cp fc g)
    ∧ emitsTrueOrOmits (Switch.requiredState sp fcs) (Switch.ariaRequired sp fcs)
    ∧ emitsTrueOrOmits (Switch.disabledState sp fcs) (Switch.ariaDisabled sp fcs)
    ∧ emitsTrueOrOmits (Switch.invalidState sp fcs) (Switch.ariaInvalid sp fcs)
    ∧ emitsTrueOrOmits (Switch.readOnlyState sp fcs) (Switch.ariaReadonly sp fcs)
    ∧ Switch.ariaCheckedAttr sp u = some (Switch.checked sp u) :=
  ⟨emitsTrueOrOmits_ite _, emitsTrueOrOmits_ite _, emitsTrueOrOmits_ite _,
   emitsTrueOrOmits_ite _, emitsTrueOrOmits_ite _, emitsTrueOrOmits_ite _,
   emitsTrueOrOmits_ite _, emitsTrueOrOmits_ite _, rfl⟩

/-- C8: the `indeterminate` prop has no effect on the resolved checked state or
on the `onChange` handler (the value reported to the form input, the group, and
change callbacks), and only selects the rendered indicator: the indeterminate
icon exactly when `indeterminate` is truthy, the checked icon exactly when the
resolved checked state is truthy and `indeterminate` is not. -/
theorem C8_indeterminate_visual_only (props : CheckboxProps) (i c : Option Bool)
    (group : Option CheckboxGroupState) (cs gh lh tc : Bool) :
    Checkbox.checked { props with indeterminate := i } group cs
      = Checkbox.checked props group cs
    ∧ Checkbox.onChange { props with indeterminate := i } gh lh cs tc
      = Checkbox.onChange props gh lh cs tc
    ∧ (truthy i = true → Checkbox.renderedIcon i c = CheckboxIcon.indeterminateIcon)
    ∧ (Checkbox.renderedIcon i c = CheckboxIcon.checkedIcon
        ↔ (truthy c = true ∧ truthy i = false)) := by
  refine ⟨rfl, rfl, ?_, ?_⟩
  · intro hi
    simp [Checkbox.renderedIcon, hi]
  · cases hi : truthy i <;> cases hc : truthy c <;>
      simp [Checkbox.renderedIcon, hi, hc]

/-- Witness for C8: with `indeterminate := true` the indeterminate icon renders
even though the resolved checked state is false, and with
`indeterminate := false` a checked box renders the checked icon. -/
theorem C8_indeterminate_visual_only_witness :
    Checkbox.renderedIcon (some true) (some false) = CheckboxIcon.indeterminateIcon
    ∧ Checkbox.renderedIcon (some false) (some true) = CheckboxIcon.checkedIcon :=
  ⟨(C8_indeterminate_visual_only
      { value := none, checked := none, defaultChecked := none, indeterminate := none,
        required := none, disabled := none, readOnly := none, invalid := none }
      (some true) (some false) none false false false false).2.2.1 rfl,
   (C8_indeterminate_visual_only
      { value := none, checked := none, defaultChecked := none, indeterminate := none,
        required := none, disabled := none, readOnly := none, invalid := none }
      (some false) (some true) none false false false false).2.2.2.mpr (by decide)⟩

/-- C9: calling the switch context accessor with no enclosing provider (the
looked-up context is absent) yields the descriptive configuration error; with a
provider present it returns the context value unchanged. -/
theorem C9_context_accessor :
    useSwitcPrimitivehContext none
      = Except.error
          "[Hope UI]: useSwitcPrimitivehContext must be used within a `<SwitchPrimitive />` component"
    ∧ ∀ c : SwitchPrimitiveContextValue,
        useSwitcPrimitivehContext (some c) = Except.ok c :=
  ⟨rfl, fun _ => rfl⟩

/-- C10: the `onKeyDown` / `onKeyUp` handlers built by `createKeyboard` never
invoke the user handlers when `isDisabled` is truthy, and when it is falsy they
forward the event unchanged to the corresponding user handler exactly when that
handler was provided (absent handlers are a safe no-op). -/
theorem C10_keyboard_guard (props : CreateKeyboardProps) (event : KeyboardEvent) :
    (truthy props.isDisabled = true →
      createKeyboard.onKeyDown props event = none
      ∧ createKeyboard.onKeyUp props event = none)
    ∧ (truthy props.isDisabled = false →
      createKeyboard.onKeyDown props event
        = (if props.hasOnKeyDown then some event else none)
      ∧ createKeyboard.onKeyUp props event
        = (if props.hasOnKeyUp then some event else none)) := by
  constructor
  · intro h
    constructor <;> simp [createKeyboard.onKeyDown, createKeyboard.onKeyUp, h]
  · intro h
    constructor <;> simp [createKeyboard.onKeyDown, createKeyboard.onKeyUp, h]

/-- Witness for C10: a disabled keyboard swallows the event; an enabled one
forwards it unchanged to the provided handler. -/
theorem C10_keyboard_guard_witness :
    createKeyboard.onKeyDown
        { isDisabled := some true, hasOnKeyDown := true, hasOnKeyUp := true }
        { key := "Enter" }
      = none
    ∧ createKeyboard.onKeyDown
        { isDisabled := none, hasOnKeyDown := true, hasOnKeyUp := false }
        { key := "Enter" }
      = some { key := "Enter" } :=
  ⟨((C10_keyboard_guard
        { isDisabled := some true, hasOnKeyDown := true, hasOnKeyUp := true }
        { key := "Enter" }).1 (by decide)).1,
   by
    simpa using ((C10_keyboard_guard
        { isDisabled := none, hasOnKeyDown := true, hasOnKeyUp := false }
        { key := "Enter" }).2 (by decide)).1⟩
